import Mathlib

/-!
Shallow embedding of `src/main.c` (audio synthesizer for the Raspberry Pi
Pico): capture pipeline with exponential-moving-average smoothing, PWM
playback, waveform rendering, the button debounce handler and the main-loop
state machine.  Machine integers are modelled as `Nat` with explicit
`% 2 ^ 32` (resp. `% 2 ^ 16`) where 32-bit (16-bit) overflow can matter.
The `float` constants of the source (`FATOR_SUAVIZACAO = 0.2f`,
`GANHO_SAIDA_AUDIO = 1.7f`, visual gain) are modelled by the exact rationals
they denote; for the 12-bit sample values the program manipulates, the
single-precision evaluation in the source agrees with the exact-rational
value, and the C integer casts are truncation toward zero.
-/

-- =====================================================================
-- Constants (src/main.c lines 44-56)
-- =====================================================================

def DISPLAY_WIDTH : Nat := 128

def DISPLAY_HEIGHT : Nat := 64

def TAXA_AMOSTRAGEM : Nat := 48000

def DURACAO_GRAVACAO_S : Nat := 2

def TAMANHO_BUFFER_AUDIO : Nat := TAXA_AMOSTRAGEM * DURACAO_GRAVACAO_S

def TEMPO_DEBOUNCE_BOTAO_MS : Nat := 200

def PINO_BOTAO_GRAVAR : Nat := 5

def PINO_BOTAO_REPRODUZIR : Nat := 6

def PINO_BUZZER_1 : Nat := 21

def PINO_BUZZER_2 : Nat := 10

/-- `2 ^ 32`, the modulus of the 32-bit unsigned arithmetic of the target. -/
def U32 : Nat := 2 ^ 32

-- =====================================================================
-- Acquisition and smoothing (src/main.c lines 248-267, 320-334)
-- =====================================================================

/-- `suavizar_sinal_audio` (line 331-334): the C source computes
`(uint16_t)(fator * amostra_atual + (1.0f - fator) * amostra_anterior)` with
`fator = 0.2f`.  With the exact value `1/5` for the factor this is
`⌊(atual + 4 * anterior) / 5⌋`, which `Nat` division gives directly; the
`uint16_t` cast is value-preserving for the 12-bit samples involved. -/
def suavizar_sinal_audio (amostra_atual amostra_anterior : Nat) : Nat :=
  (amostra_atual + 4 * amostra_anterior) / 5

/-- The running value of the accumulator `amostra_suavizada` of the filtering
loop in `processo_de_gravacao` (lines 260-264), as a function of the raw
captured samples `mic`: slot 0 keeps the raw sample, slot `i + 1` smooths the
raw sample `mic (i + 1)` against the previous *smoothed* value. -/
def suavizado (mic : Nat → Nat) : Nat → Nat
  | 0 => mic 0
  | i + 1 => suavizar_sinal_audio (mic (i + 1)) (suavizado mic i)

/-- `processo_de_gravacao` (lines 248-267).  `freq_amostragem` and
`duracao_seg` are `uint32_t`, so the requested count `freq * dur` is computed
modulo `2 ^ 32`, then clamped to `TAMANHO_BUFFER_AUDIO`.  The DMA capture
(line 257) writes the raw microphone readings `mic i` into slots
`0 ≤ i < total`, then the in-place smoothing loop (lines 260-264) overwrites
slots `1 ≤ i < total` with the filtered values; slots `≥ total` keep the
previous buffer contents `old`.  Returns the sample count together with the
final buffer contents. -/
def processo_de_gravacao (freq_amostragem duracao_seg : Nat)
    (mic old : Nat → Nat) : Nat × (Nat → Nat) :=
  let total_de_amostras :=
    if freq_amostragem * duracao_seg % U32 > TAMANHO_BUFFER_AUDIO then
      TAMANHO_BUFFER_AUDIO
    else
      freq_amostragem * duracao_seg % U32
  (total_de_amostras,
   fun i => if i < total_de_amostras then suavizado mic i else old i)

-- =====================================================================
-- Playback (src/main.c lines 269-291)
-- =====================================================================

/-- One call to `pwm_set_gpio_level(pino, nivel)` performed by
`processo_de_reproducao`. -/
structure EscritaPWM where
  pino : Nat
  nivel : Nat
deriving DecidableEq, Repr

/-- Lines 270-272: `valor_max_pwm = clock / freq_amostragem - 1` in
`uint32_t` arithmetic (the subtraction wraps modulo `2 ^ 32` when
`clock / freq = 0`), then `0` is replaced by `1`. -/
def valor_max_pwm (clock freq_amostragem : Nat) : Nat :=
  let v := (clock / freq_amostragem + (U32 - 1)) % U32
  if v = 0 then 1 else v

/-- Line 276: `(uint32_t)(dados[i] * GANHO_SAIDA_AUDIO)` with gain `1.7f`.
For every `uint16_t` sample the single-precision product truncates to
`⌊17 * d / 10⌋`, which `Nat` division gives directly. -/
def amostra_amplificada (dado : Nat) : Nat :=
  dado * 17 / 10

/-- Line 277: saturation of the amplified sample at the 12-bit ceiling. -/
def amostra_grampeada (dado : Nat) : Nat :=
  if amostra_amplificada dado > 4095 then 4095 else amostra_amplificada dado

/-- Line 280: duty-cycle level `(amostra_amplificada * valor_max_pwm) / 4095`
computed from the clipped sample. -/
def nivel_pwm (dado valor_max : Nat) : Nat :=
  amostra_grampeada dado * valor_max / 4095

/-- The PWM writes issued by the `for` loop of `processo_de_reproducao`
(lines 274-287): at step `i` the level `nivel_pwm (dados i) valor_max` is
written to `pino_a` and then to `pino_b`. -/
def escritas_laco (pino_a pino_b : Nat) (dados : Nat → Nat) (valor_max : Nat) :
    Nat → List EscritaPWM
  | 0 => []
  | n + 1 =>
    escritas_laco pino_a pino_b dados valor_max n ++
      [⟨pino_a, nivel_pwm (dados n) valor_max⟩,
       ⟨pino_b, nivel_pwm (dados n) valor_max⟩]

/-- `processo_de_reproducao` (lines 269-291), observed as the sequence of PWM
level writes it performs: the per-sample writes of the loop followed by the
final zeroing of both outputs (lines 289-290).  `clock` is the system clock
frequency read at line 270. -/
def processo_de_reproducao (pino_a pino_b : Nat) (dados : Nat → Nat)
    (n_amostras freq_amostragem clock : Nat) : List EscritaPWM :=
  escritas_laco pino_a pino_b dados (valor_max_pwm clock freq_amostragem)
      n_amostras ++
    [⟨pino_a, 0⟩, ⟨pino_b, 0⟩]

-- =====================================================================
-- Debounce handler (src/main.c lines 66-72, 303-318)
-- =====================================================================

/-- The mutable state touched by `tratador_interrupcao_botao`: the two
last-accepted timestamps (lines 71-72) and the two pending flags
(lines 67-68). -/
structure DebounceState where
  ultimo_acionamento_gravar : Nat
  ultimo_acionamento_reproduzir : Nat
  flag_botao_gravar_ativado : Bool
  flag_botao_reproduzir_ativado : Bool
deriving DecidableEq, Repr

/-- Boot state: both timestamps `0`, both flags clear (lines 67-72). -/
def estado_inicial_debounce : DebounceState :=
  ⟨0, 0, false, false⟩

/-- `uint32_t` subtraction `a - b`, for operands below `2 ^ 32`. -/
def sub_u32 (a b : Nat) : Nat :=
  (a + U32 - b) % U32

/-- `tratador_interrupcao_botao` (lines 303-318): on an edge at millisecond
timestamp `agora` on pin `pino`, each button's branch accepts the edge (sets
the pending flag and updates the last-accepted timestamp) exactly when
`agora - ultimo_acionamento > TEMPO_DEBOUNCE_BOTAO_MS` in `uint32_t`
arithmetic. -/
def tratador_interrupcao_botao (pino agora : Nat) (s : DebounceState) :
    DebounceState :=
  let s₁ :=
    if pino = PINO_BOTAO_GRAVAR then
      if sub_u32 agora s.ultimo_acionamento_gravar > TEMPO_DEBOUNCE_BOTAO_MS then
        { s with flag_botao_gravar_ativado := true,
                 ultimo_acionamento_gravar := agora }
      else s
    else s
  if pino = PINO_BOTAO_REPRODUZIR then
    if sub_u32 agora s₁.ultimo_acionamento_reproduzir > TEMPO_DEBOUNCE_BOTAO_MS then
      { s₁ with flag_botao_reproduzir_ativado := true,
                ultimo_acionamento_reproduzir := agora }
    else s₁
  else s₁

-- =====================================================================
-- Waveform renderer (src/main.c lines 336-382)
-- =====================================================================

/-- Line 341: vertical space reserved for the caption. -/
def y_offset : Nat := 12

/-- Line 342: height of the drawing band. -/
def altura_desenho : Nat := DISPLAY_HEIGHT - y_offset

/-- Line 343: the zero-amplitude axis row. -/
def y_centro : Nat := y_offset + altura_desenho / 2

/-- Line 348: number of columns drawn,
`min n_amostras DISPLAY_WIDTH` written as in the source. -/
def colunas_a_desenhar (n_amostras : Nat) : Nat :=
  if n_amostras < DISPLAY_WIDTH then n_amostras else DISPLAY_WIDTH

/-- Line 351: the sample index read for display column `x`
(nearest-index decimation when the block exceeds the display width). -/
def indice_amostra (n_amostras x : Nat) : Nat :=
  if n_amostras > DISPLAY_WIDTH then x * n_amostras / DISPLAY_WIDTH else x

/-- Line 354: signed amplitude of a sample relative to `ADC_ZERO = 2048`. -/
def amplitude (amostra : Nat) : Int :=
  (amostra : Int) - 2048

/-- Line 357: `y_centro - (int)((float)amplitude / 2048 * (52 / 2.0f) * 4.0f)`.
Every single-precision step is exact here (division by the power of two
`2048`, then products with integer results below `2 ^ 24`), so the cast is
truncation toward zero of `amplitude * 104 / 2048`, i.e. `Int.tdiv`. -/
def y_final_bruto (amostra : Nat) : Int :=
  (y_centro : Int) -
    Int.tdiv (amplitude amostra * ((altura_desenho / 2) * 4 : Nat)) 2048

/-- Lines 360-361: clip the column endpoint into the drawable band. -/
def y_final (amostra : Nat) : Nat :=
  let y₁ := if y_final_bruto amostra < (y_offset : Int) then (y_offset : Int)
            else y_final_bruto amostra
  let y₂ := if y₁ ≥ (DISPLAY_HEIGHT : Int) then (DISPLAY_HEIGHT : Int) - 1 else y₁
  y₂.toNat

/-- Lines 364-372: the pixels `(x, y)` set for column `x` holding sample
`amostra`: a vertical run from the axis down to `y_final` (amplitude below
the axis) or from `y_final` up to the axis. -/
def pixels_coluna (x amostra : Nat) : List (Nat × Nat) :=
  if y_final amostra > y_centro then
    (List.range (y_final amostra - y_centro + 1)).map (fun k => (x, y_centro + k))
  else
    (List.range (y_centro - y_final amostra + 1)).map (fun k => (x, y_final amostra + k))

/-- The complete set of waveform pixels set by the column loop of
`mostrar_waveform_display` (lines 348-373), in drawing order. -/
def pixels_waveform (dados_audio : Nat → Nat) (n_amostras : Nat) :
    List (Nat × Nat) :=
  (List.range (colunas_a_desenhar n_amostras)).flatMap
    (fun x => pixels_coluna x (dados_audio (indice_amostra n_amostras x)))

/-- The all-clear screen produced by the `memset` of line 337. -/
def tela_limpa : Nat → Nat → Bool :=
  fun _ _ => false

/-- Applies a pixel list to a screen (each entry sets its pixel, as
`ssd1306_set_pixel(buffer, x, y, true)` does). -/
def aplicar_pixels (pixels : List (Nat × Nat)) (tela : Nat → Nat → Bool) :
    Nat → Nat → Bool :=
  pixels.foldl (fun t p => fun x y => if x = p.1 ∧ y = p.2 then true else t x y) tela

/-- `mostrar_waveform_display` (lines 336-382) as a screen-buffer
transformer.  `desenhar_legenda` stands for the external
`ssd1306_draw_string(buffer, 10, 0, "Onda capturada")` call (line 338); the
previous contents `tela_anterior` are discarded by the `memset` clear, the
caption is drawn on the cleared screen, and the column loop then sets the
waveform pixels. -/
def mostrar_waveform_display
    (desenhar_legenda : (Nat → Nat → Bool) → Nat → Nat → Bool)
    (dados_audio : Nat → Nat) (n_amostras : Nat)
    (_tela_anterior : Nat → Nat → Bool) : Nat → Nat → Bool :=
  aplicar_pixels (pixels_waveform dados_audio n_amostras)
    (desenhar_legenda tela_limpa)

-- =====================================================================
-- Main-loop state machine (src/main.c lines 106-155)
-- =====================================================================

/-- Line 110: the two standing states of the system. -/
inductive EstadoSistema
  | MODO_ESPERA
  | MODO_AGUARDANDO_PLAYBACK
deriving DecidableEq, Repr

/-- An RGB LED colour as set by `definir_cor_led`. -/
structure CorLed where
  vermelho : Bool
  verde : Bool
  azul : Bool
deriving DecidableEq, Repr

def ledApagado : CorLed := ⟨false, false, false⟩

def ledVermelho : CorLed := ⟨true, false, false⟩

def ledVerde : CorLed := ⟨false, true, false⟩

/-- The state mutated by one iteration of the main loop: the state-machine
mode, the two pending button flags, the LED colour and the captured-sample
count. -/
structure SistemaState where
  estado : EstadoSistema
  flag_botao_gravar_ativado : Bool
  flag_botao_reproduzir_ativado : Bool
  led : CorLed
  total_amostras_capturadas : Nat
deriving DecidableEq, Repr

/-- The externally observable actions performed during one loop iteration. -/
inductive Evento
  | led (cor : CorLed)
  | gravacao (n : Nat)
  | waveform (n : Nat)
  | reproducao (n : Nat)
  | apagarTela
deriving DecidableEq, Repr

/-- Button presses delivered by the interrupt handler *while the long
synchronous calls of the taken branch run* (recording + rendering in the
`MODO_ESPERA` branch, playback + screen clear in the
`MODO_AGUARDANDO_PLAYBACK` branch).  Presses that arrive between loop
iterations are modelled by updating the flags of the state directly. -/
structure PressoesDuranteChamadas where
  gravar : Bool
  reproduzir : Bool
deriving DecidableEq, Repr

/-- The captured-sample count of a recording started by the main loop:
`processo_de_gravacao TAXA_AMOSTRAGEM DURACAO_GRAVACAO_S` (line 123). -/
def contagem_gravacao : Nat :=
  (processo_de_gravacao TAXA_AMOSTRAGEM DURACAO_GRAVACAO_S
    (fun _ => 0) (fun _ => 0)).1

/-- One iteration of the `while (true)` loop of `main` (lines 115-153),
returning the successor state and the list of observable events.
`MODO_ESPERA` with the record flag set (lines 118-131): the flag is cleared
(line 119) before recording, so a record press during the branch (`p.gravar`)
is what remains pending; the play flag is untouched, so a play press during
the branch ORs into it; the LED ends switched off and the state moves to
`MODO_AGUARDANDO_PLAYBACK`.  `MODO_AGUARDANDO_PLAYBACK` with the play flag
set (lines 135-150): the play flag is cleared (line 136) before playback, so
a play press during the branch is what remains pending, and line 147 clears
the record flag *after* playback, discarding any record press delivered
during it.  All other combinations leave the state unchanged and perform no
action. -/
def passo_loop (p : PressoesDuranteChamadas) (s : SistemaState) :
    SistemaState × List Evento :=
  match s.estado with
  | .MODO_ESPERA =>
    if s.flag_botao_gravar_ativado then
      ({ estado := .MODO_AGUARDANDO_PLAYBACK,
         flag_botao_gravar_ativado := p.gravar,
         flag_botao_reproduzir_ativado :=
           s.flag_botao_reproduzir_ativado || p.reproduzir,
         led := ledApagado,
         total_amostras_capturadas := contagem_gravacao },
       [.led ledVermelho, .gravacao contagem_gravacao, .led ledApagado,
        .waveform contagem_gravacao])
    else (s, [])
  | .MODO_AGUARDANDO_PLAYBACK =>
    if s.flag_botao_reproduzir_ativado then
      ({ estado := .MODO_ESPERA,
         flag_botao_gravar_ativado := false,
         flag_botao_reproduzir_ativado := p.reproduzir,
         led := ledApagado,
         total_amostras_capturadas := s.total_amostras_capturadas },
       [.led ledVerde, .reproducao s.total_amostras_capturadas,
        .led ledApagado, .apagarTela])
    else (s, [])

/-- The test block used by the smoothing-filter claims:
`[4095, 0, 4095, 0]` (spec section 8), extended by zeros. -/
def sinal_teste : Nat → Nat :=
  fun i => [4095, 0, 4095, 0].getD i 0

/-- A concrete `MODO_ESPERA` state with the record flag pending, used by the
state-machine witnesses. -/
def estado_espera_gravar : SistemaState :=
  ⟨.MODO_ESPERA, true, false, ledApagado, 0⟩

/-- A concrete `MODO_ESPERA` state with both flags pending. -/
def estado_espera_ambos : SistemaState :=
  ⟨.MODO_ESPERA, true, true, ledApagado, 0⟩

/-- No button press delivered during the long calls of a loop iteration. -/
def sem_pressao : PressoesDuranteChamadas :=
  ⟨false, false⟩

/-- A record-button press delivered during the long calls of a loop
iteration (e.g. during playback). -/
def pressao_gravar : PressoesDuranteChamadas :=
  ⟨true, false⟩

-- =====================================================================
-- Helper lemmas
-- =====================================================================

/-- Reading the recorded buffer: slots below the returned count hold the
smoothed values, the others keep the previous contents. -/
lemma processo_de_gravacao_snd (freq dur : Nat) (mic old : Nat → Nat) (j : Nat) :
    (processo_de_gravacao freq dur mic old).2 j =
      if j < (processo_de_gravacao freq dur mic old).1 then suavizado mic j
      else old j :=
  rfl

/-- The truncating `Nat`-division form of the filter is the floor of the
exact exponential-moving-average expression with `alpha = 1/5`. -/
lemma suavizar_sinal_audio_eq_floor (a b : Nat) :
    suavizar_sinal_audio a b = ⌊(1 / 5 : ℚ) * a + (4 / 5) * b⌋₊ := by
  rw [suavizar_sinal_audio]
  rw [show (1 / 5 : ℚ) * a + (4 / 5) * b = ((a + 4 * b : ℕ) : ℚ) / ((5 : ℕ) : ℚ) by
    push_cast; ring]
  rw [Nat.floor_div_nat, Nat.floor_natCast]

-- =====================================================================
-- C1: recursive exponential moving average
-- =====================================================================

/-- Claim C1 counterexample: on the block `[4095, 0, 4095, 0]` the code
produces `out[1] = 3276` and `out[2] = 3439`, whereas the claimed formula
`out[2] = round(0.2 * 4095 + 0.8 * out[1]) = round(3439.8)` demands `3440`:
the cast in `suavizar_sinal_audio` truncates, it does not round. -/
theorem c1_contraexemplo_arredondamento :
    (processo_de_gravacao 4 1 sinal_teste (fun _ => 0)).2 1 = 3276 ∧
    (processo_de_gravacao 4 1 sinal_teste (fun _ => 0)).2 2 = 3439 ∧
    round ((1 / 5 : ℚ) * 4095 + (4 / 5) * 3276) = 3440 ∧
    (3439 : Nat) ≠ 3440 :=
  ⟨by decide, by decide, by norm_num [round_eq], by decide⟩

/-- Claim C1 (amended): for every non-empty captured block the smoothing
pass satisfies the exact recursive exponential-moving-average equations with
`alpha = 0.2` and truncation (floor) in place of rounding: `out[0] = in[0]`
and, for `1 ≤ i < count`, `out[i] = ⌊0.2 * in[i] + 0.8 * out[i-1]⌋`, the
prior term being the immediately preceding smoothed output. -/
theorem c1_suavizacao_trunca (freq dur : Nat) (mic old : Nat → Nat) (i : Nat)
    (h1 : 1 ≤ i) (h2 : i < (processo_de_gravacao freq dur mic old).1) :
    (processo_de_gravacao freq dur mic old).2 0 = mic 0 ∧
    (processo_de_gravacao freq dur mic old).2 i =
      ⌊(1 / 5 : ℚ) * mic i +
        (4 / 5) * ((processo_de_gravacao freq dur mic old).2 (i - 1))⌋₊ := by
  obtain ⟨j, rfl⟩ : ∃ j, i = j + 1 :=
    ⟨i - 1, (Nat.succ_pred_eq_of_pos h1).symm⟩
  have h0 : 0 < (processo_de_gravacao freq dur mic old).1 :=
    Nat.lt_trans (Nat.succ_pos j) h2
  have hj : j < (processo_de_gravacao freq dur mic old).1 :=
    Nat.lt_trans (Nat.lt_succ_self j) h2
  constructor
  · rw [processo_de_gravacao_snd, if_pos h0]
    rfl
  · rw [processo_de_gravacao_snd, if_pos h2]
    have hprev : (processo_de_gravacao freq dur mic old).2 (j + 1 - 1) =
        suavizado mic j := by
      rw [processo_de_gravacao_snd]
      simp [hj]
    rw [hprev]
    show suavizar_sinal_audio (mic (j + 1)) (suavizado mic j) = _
    exact suavizar_sinal_audio_eq_floor _ _

/-- Witness for the amended claim C1 at the block `[4095, 0, 4095, 0]`
captured with `freq * dur = 4`, at index `i = 2`. -/
theorem c1_suavizacao_trunca_witness :
    (1 ≤ 2 ∧ 2 < (processo_de_gravacao 4 1 sinal_teste (fun _ => 0)).1) ∧
    ((processo_de_gravacao 4 1 sinal_teste (fun _ => 0)).2 0 = sinal_teste 0 ∧
     (processo_de_gravacao 4 1 sinal_teste (fun _ => 0)).2 2 =
       ⌊(1 / 5 : ℚ) * sinal_teste 2 +
         (4 / 5) * ((processo_de_gravacao 4 1 sinal_teste (fun _ => 0)).2 (2 - 1))⌋₊) :=
  ⟨⟨by decide, by decide⟩,
   c1_suavizacao_trunca 4 1 sinal_teste (fun _ => 0) 2 (by decide) (by decide)⟩

-- =====================================================================
-- C3: clamping and in-bounds writes
-- =====================================================================

/-- Claim C3 counterexample: `freq_amostragem` and `duracao_seg` are 32-bit,
so the requested count `65536 * 65536` wraps to `0`; the call returns `0`,
not the capacity `96000`, even though the mathematical product exceeds the
capacity. -/
theorem c3_contraexemplo_overflow :
    TAMANHO_BUFFER_AUDIO < 65536 * 65536 ∧
    (processo_de_gravacao 65536 65536 (fun _ => 0) (fun _ => 0)).1 = 0 ∧
    (0 : Nat) ≠ TAMANHO_BUFFER_AUDIO :=
  ⟨by decide, by decide, by decide⟩

/-- Claim C3 (amended): whenever the product `sample_rate * duration` does
not overflow the 32-bit arithmetic it is computed in, a product above the
buffer capacity makes the capture return exactly the capacity `96000`; the
returned count never exceeds the capacity; and, for every input, the
capture-plus-smoothing pass never writes to a buffer index at or above the
returned count (slots there keep their previous contents). -/
theorem c3_grampeamento_sem_overflow (freq dur : Nat) (mic old : Nat → Nat) :
    (freq * dur < U32 → TAMANHO_BUFFER_AUDIO < freq * dur →
      (processo_de_gravacao freq dur mic old).1 = TAMANHO_BUFFER_AUDIO) ∧
    (processo_de_gravacao freq dur mic old).1 ≤ TAMANHO_BUFFER_AUDIO ∧
    (∀ i, (processo_de_gravacao freq dur mic old).1 ≤ i →
      (processo_de_gravacao freq dur mic old).2 i = old i) := by
  refine ⟨fun hlt hcap => ?_, ?_, fun i hi => ?_⟩
  · show (if freq * dur % U32 > TAMANHO_BUFFER_AUDIO then TAMANHO_BUFFER_AUDIO
          else freq * dur % U32) = TAMANHO_BUFFER_AUDIO
    rw [Nat.mod_eq_of_lt hlt, if_pos hcap]
  · show (if freq * dur % U32 > TAMANHO_BUFFER_AUDIO then TAMANHO_BUFFER_AUDIO
          else freq * dur % U32) ≤ TAMANHO_BUFFER_AUDIO
    split
    · exact Nat.le_refl _
    · omega
  · rw [processo_de_gravacao_snd, if_neg (Nat.not_lt.mpr hi)]

/-- Witness for the amended claim C3 at `freq = 96001`, `dur = 1`: the
product exceeds the capacity without 32-bit overflow, the call returns
`96000`, and slot `96000` keeps its previous contents `7`. -/
theorem c3_grampeamento_sem_overflow_witness :
    96001 * 1 < U32 ∧ TAMANHO_BUFFER_AUDIO < 96001 * 1 ∧
    (processo_de_gravacao 96001 1 (fun _ => 0) (fun _ => 7)).1 =
      TAMANHO_BUFFER_AUDIO ∧
    (processo_de_gravacao 96001 1 (fun _ => 0) (fun _ => 7)).2 96000 = 7 :=
  ⟨by decide, by decide,
   (c3_grampeamento_sem_overflow 96001 1 (fun _ => 0) (fun _ => 7)).1
     (by decide) (by decide),
   (c3_grampeamento_sem_overflow 96001 1 (fun _ => 0) (fun _ => 7)).2.2 96000
     (by decide)⟩

-- =====================================================================
-- C4: gain, saturation and duty-cycle bound
-- =====================================================================

/-- The clipped sample never exceeds the 12-bit ceiling. -/
lemma amostra_grampeada_le (dado : Nat) : amostra_grampeada dado ≤ 4095 := by
  rw [amostra_grampeada]
  split
  · exact Nat.le_refl _
  · omega

/-- The duty-cycle level computed from a clipped sample never exceeds the
PWM wrap value. -/
lemma nivel_pwm_le (dado valor_max : Nat) : nivel_pwm dado valor_max ≤ valor_max := by
  rw [nivel_pwm]
  calc amostra_grampeada dado * valor_max / 4095
      ≤ 4095 * valor_max / 4095 :=
        Nat.div_le_div_right (Nat.mul_le_mul_right _ (amostra_grampeada_le dado))
    _ = valor_max := Nat.mul_div_cancel_left _ (by norm_num)

/-- Every write of the per-sample loop carries a level bounded by the PWM
wrap value. -/
lemma escritas_laco_nivel_le (pino_a pino_b : Nat) (dados : Nat → Nat)
    (valor_max n : Nat) :
    ∀ e ∈ escritas_laco pino_a pino_b dados valor_max n, e.nivel ≤ valor_max := by
  induction n with
  | zero => intro e he; cases he
  | succ n ih =>
    intro e he
    rw [escritas_laco] at he
    rcases List.mem_append.mp he with h | h
    · exact ih e h
    · rcases h with _ | ⟨_, h⟩
      · exact nivel_pwm_le _ _
      · rcases h with _ | ⟨_, h⟩
        · exact nivel_pwm_le _ _
        · cases h

/-- Claim C4: the gain-scaled sample (gain `1.7`) is saturated at the 12-bit
ceiling `4095`, not wrapped — in particular raw sample `4095` scales to
`6961` (`⌊6961.65⌋`) and clips to `4095` — the duty-cycle level is
`clipped * valor_max / 4095`, and no level ever written during playback
exceeds the PWM wrap value. -/
theorem c4_saturacao_nivel_pwm (dado valor_max pino_a pino_b : Nat)
    (dados : Nat → Nat) (n_amostras freq_amostragem clock : Nat) :
    amostra_grampeada dado ≤ 4095 ∧
    nivel_pwm dado valor_max = amostra_grampeada dado * valor_max / 4095 ∧
    nivel_pwm dado valor_max ≤ valor_max ∧
    amostra_amplificada 4095 = 6961 ∧
    amostra_grampeada 4095 = 4095 ∧
    ∀ e ∈ processo_de_reproducao pino_a pino_b dados n_amostras
        freq_amostragem clock,
      e.nivel ≤ valor_max_pwm clock freq_amostragem := by
  refine ⟨amostra_grampeada_le dado, rfl, nivel_pwm_le dado valor_max,
    by decide, by decide, fun e he => ?_⟩
  rw [processo_de_reproducao] at he
  rcases List.mem_append.mp he with h | h
  · exact escritas_laco_nivel_le _ _ _ _ _ e h
  · rcases h with _ | ⟨_, h⟩
    · exact Nat.zero_le _
    · rcases h with _ | ⟨_, h⟩
      · exact Nat.zero_le _
      · cases h

/-- Witness for claim C4: the zero write on pin 21 is one of the writes of a
concrete playback call and its level respects the PWM wrap value. -/
theorem c4_saturacao_nivel_pwm_witness :
    (⟨21, 0⟩ : EscritaPWM) ∈
      processo_de_reproducao 21 10 (fun _ => 4095) 0 48000 125000000 ∧
    (⟨21, 0⟩ : EscritaPWM).nivel ≤ valor_max_pwm 125000000 48000 :=
  ⟨by decide,
   (c4_saturacao_nivel_pwm 4095 2603 21 10 (fun _ => 4095) 0 48000
     125000000).2.2.2.2.2 ⟨21, 0⟩ (by decide)⟩

-- =====================================================================
-- C7: playback write discipline
-- =====================================================================

/-- The per-sample loop performs two writes per sample. -/
lemma escritas_laco_length (pino_a pino_b : Nat) (dados : Nat → Nat)
    (valor_max n : Nat) :
    (escritas_laco pino_a pino_b dados valor_max n).length = 2 * n := by
  induction n with
  | zero => rfl
  | succ n ih =>
    rw [escritas_laco, List.length_append, ih]
    simp [Nat.mul_succ]

/-- Within the per-sample loop, step `i` writes the identical level first to
`pino_a` (position `2 * i`) and then to `pino_b` (position `2 * i + 1`). -/
lemma escritas_laco_getElem (pino_a pino_b : Nat) (dados : Nat → Nat)
    (valor_max n i : Nat) (hi : i < n) :
    (escritas_laco pino_a pino_b dados valor_max n)[2 * i]? =
      some ⟨pino_a, nivel_pwm (dados i) valor_max⟩ ∧
    (escritas_laco pino_a pino_b dados valor_max n)[2 * i + 1]? =
      some ⟨pino_b, nivel_pwm (dados i) valor_max⟩ := by
  induction n with
  | zero => cases hi
  | succ n ih =>
    rw [escritas_laco]
    rcases Nat.lt_succ_iff_lt_or_eq.mp hi with h | rfl
    · have hlen : 2 * i + 1 < (escritas_laco pino_a pino_b dados valor_max n).length := by
        rw [escritas_laco_length]; omega
      rw [List.getElem?_append_left (by omega), List.getElem?_append_left hlen]
      exact ih h
    · have hlen : (escritas_laco pino_a pino_b dados valor_max i).length = 2 * i :=
        escritas_laco_length _ _ _ _ _
      rw [List.getElem?_append_right (by omega), List.getElem?_append_right (by omega),
        hlen]
      constructor
      · rw [show 2 * i - 2 * i = 0 by omega]; rfl
      · rw [show 2 * i + 1 - 2 * i = 1 by omega]; rfl

/-- Claim C7: a playback call with `n_amostras = 0` performs no per-sample
writes and only zeroes both channels; at every step the identical level is
written to both channels; and the write sequence always ends with the two
zero writes after the last sample. -/
theorem c7_reproducao_eventos (pino_a pino_b : Nat) (dados : Nat → Nat)
    (n_amostras freq_amostragem clock : Nat) :
    (n_amostras = 0 →
      processo_de_reproducao pino_a pino_b dados n_amostras freq_amostragem clock =
        [⟨pino_a, 0⟩, ⟨pino_b, 0⟩]) ∧
    (∀ i, i < n_amostras →
      (processo_de_reproducao pino_a pino_b dados n_amostras freq_amostragem
          clock)[2 * i]? =
        some ⟨pino_a, nivel_pwm (dados i) (valor_max_pwm clock freq_amostragem)⟩ ∧
      (processo_de_reproducao pino_a pino_b dados n_amostras freq_amostragem
          clock)[2 * i + 1]? =
        some ⟨pino_b, nivel_pwm (dados i) (valor_max_pwm clock freq_amostragem)⟩) ∧
    (∃ pre, processo_de_reproducao pino_a pino_b dados n_amostras
        freq_amostragem clock = pre ++ [⟨pino_a, 0⟩, ⟨pino_b, 0⟩] ∧
      pre.length = 2 * n_amostras) := by
  refine ⟨fun h => ?_, fun i hi => ?_, ?_⟩
  · subst h
    rfl
  · have hlen : 2 * i + 1 <
        (escritas_laco pino_a pino_b dados (valor_max_pwm clock freq_amostragem)
          n_amostras).length := by
      rw [escritas_laco_length]; omega
    rw [processo_de_reproducao, List.getElem?_append_left (by omega),
      List.getElem?_append_left hlen]
    exact escritas_laco_getElem _ _ _ _ _ i hi
  · exact ⟨escritas_laco pino_a pino_b dados (valor_max_pwm clock freq_amostragem)
        n_amostras,
      rfl, escritas_laco_length _ _ _ _ _⟩

/-- Witness for claim C7: a zero-sample call writes exactly the two zeroes,
and for a one-sample call step `0` writes the same level to pins 21 and
10. -/
theorem c7_reproducao_eventos_witness :
    processo_de_reproducao 21 10 (fun _ => 4095) 0 48000 125000000 =
      [⟨21, 0⟩, ⟨10, 0⟩] ∧
    ((0 : Nat) < 1 ∧
      (processo_de_reproducao 21 10 (fun _ => 4095) 1 48000 125000000)[2 * 0]? =
        some ⟨21, nivel_pwm 4095 (valor_max_pwm 125000000 48000)⟩ ∧
      (processo_de_reproducao 21 10 (fun _ => 4095) 1 48000 125000000)[2 * 0 + 1]? =
        some ⟨10, nivel_pwm 4095 (valor_max_pwm 125000000 48000)⟩) :=
  ⟨(c7_reproducao_eventos 21 10 (fun _ => 4095) 0 48000 125000000).1 rfl,
   by decide,
   ((c7_reproducao_eventos 21 10 (fun _ => 4095) 1 48000 125000000).2.1 0
     (by decide)).1,
   ((c7_reproducao_eventos 21 10 (fun _ => 4095) 1 48000 125000000).2.1 0
     (by decide)).2⟩


-- =====================================================================
-- C5: debounce window
-- =====================================================================

/-- Dispatch on the record-button pin reduces the handler to its
record-button branch. -/
lemma tratador_gravar_eq (t : Nat) (s : DebounceState) :
    tratador_interrupcao_botao PINO_BOTAO_GRAVAR t s =
      if sub_u32 t s.ultimo_acionamento_gravar > TEMPO_DEBOUNCE_BOTAO_MS then
        { s with flag_botao_gravar_ativado := true,
                 ultimo_acionamento_gravar := t }
      else s :=
  rfl

/-- Dispatch on the play-button pin reduces the handler to its play-button
branch. -/
lemma tratador_reproduzir_eq (t : Nat) (s : DebounceState) :
    tratador_interrupcao_botao PINO_BOTAO_REPRODUZIR t s =
      if sub_u32 t s.ultimo_acionamento_reproduzir > TEMPO_DEBOUNCE_BOTAO_MS then
        { s with flag_botao_reproduzir_ativado := true,
                 ultimo_acionamento_reproduzir := t }
      else s :=
  rfl

/-- Unsigned 32-bit subtraction agrees with `Nat` subtraction when the
difference is an in-range value. -/
lemma sub_u32_eq_sub (a b : Nat) (hba : b ≤ a) (hlt : a - b < U32) :
    sub_u32 a b = a - b := by
  rw [sub_u32]
  rw [show a + U32 - b = (a - b) + U32 by omega]
  rw [Nat.add_mod_right]
  exact Nat.mod_eq_of_lt hlt

/-- Claim C5: for each button, an edge is accepted (pending flag set,
timestamp recorded) exactly when `timestamp - last_accepted > 200 ms` in the
32-bit arithmetic of the handler; a rejected edge changes nothing (silent
discard, no timestamp update); an edge strictly after the window is accepted
regardless of the prior flag state; and after an accepted edge, any second
edge on the same button within 200 ms of it is discarded. -/
theorem c5_debounce (s : DebounceState) (t u : Nat)
    (_ht : t < U32) (_hu : u < U32) :
    (sub_u32 t s.ultimo_acionamento_gravar ≤ TEMPO_DEBOUNCE_BOTAO_MS →
      tratador_interrupcao_botao PINO_BOTAO_GRAVAR t s = s) ∧
    (sub_u32 t s.ultimo_acionamento_gravar > TEMPO_DEBOUNCE_BOTAO_MS →
      tratador_interrupcao_botao PINO_BOTAO_GRAVAR t s =
        { s with flag_botao_gravar_ativado := true,
                 ultimo_acionamento_gravar := t }) ∧
    (sub_u32 t s.ultimo_acionamento_gravar > TEMPO_DEBOUNCE_BOTAO_MS →
      t ≤ u → u - t ≤ TEMPO_DEBOUNCE_BOTAO_MS →
      tratador_interrupcao_botao PINO_BOTAO_GRAVAR u
          (tratador_interrupcao_botao PINO_BOTAO_GRAVAR t s) =
        tratador_interrupcao_botao PINO_BOTAO_GRAVAR t s) ∧
    (sub_u32 t s.ultimo_acionamento_reproduzir ≤ TEMPO_DEBOUNCE_BOTAO_MS →
      tratador_interrupcao_botao PINO_BOTAO_REPRODUZIR t s = s) ∧
    (sub_u32 t s.ultimo_acionamento_reproduzir > TEMPO_DEBOUNCE_BOTAO_MS →
      tratador_interrupcao_botao PINO_BOTAO_REPRODUZIR t s =
        { s with flag_botao_reproduzir_ativado := true,
                 ultimo_acionamento_reproduzir := t }) ∧
    (sub_u32 t s.ultimo_acionamento_reproduzir > TEMPO_DEBOUNCE_BOTAO_MS →
      t ≤ u → u - t ≤ TEMPO_DEBOUNCE_BOTAO_MS →
      tratador_interrupcao_botao PINO_BOTAO_REPRODUZIR u
          (tratador_interrupcao_botao PINO_BOTAO_REPRODUZIR t s) =
        tratador_interrupcao_botao PINO_BOTAO_REPRODUZIR t s) := by
  refine ⟨fun hrej => ?_, fun hacc => ?_, fun hacc hle hwin => ?_,
          fun hrej => ?_, fun hacc => ?_, fun hacc hle hwin => ?_⟩
  · rw [tratador_gravar_eq, if_neg (Nat.not_lt.mpr hrej)]
  · rw [tratador_gravar_eq, if_pos hacc]
  · have hwin2 : sub_u32 u t = u - t := by
      refine sub_u32_eq_sub u t hle ?_
      rw [TEMPO_DEBOUNCE_BOTAO_MS] at hwin
      rw [U32]
      omega
    rw [tratador_gravar_eq t s, if_pos hacc, tratador_gravar_eq]
    rw [show ({ s with flag_botao_gravar_ativado := true, ultimo_acionamento_gravar := t } : DebounceState).ultimo_acionamento_gravar = t from rfl]
    rw [hwin2, if_neg (Nat.not_lt.mpr hwin)]
  · rw [tratador_reproduzir_eq, if_neg (Nat.not_lt.mpr hrej)]
  · rw [tratador_reproduzir_eq, if_pos hacc]
  · have hwin2 : sub_u32 u t = u - t := by
      refine sub_u32_eq_sub u t hle ?_
      rw [TEMPO_DEBOUNCE_BOTAO_MS] at hwin
      rw [U32]
      omega
    rw [tratador_reproduzir_eq t s, if_pos hacc, tratador_reproduzir_eq]
    rw [show ({ s with flag_botao_reproduzir_ativado := true, ultimo_acionamento_reproduzir := t } : DebounceState).ultimo_acionamento_reproduzir = t from rfl]
    rw [hwin2, if_neg (Nat.not_lt.mpr hwin)]

/-- Witness for claim C5 from the boot state: the edge at `t = 300` on the
record button is accepted, and a second edge at `u = 450` (150 ms later,
within the window) is discarded. -/
theorem c5_debounce_witness :
    (300 : Nat) < U32 ∧ (450 : Nat) < U32 ∧
    tratador_interrupcao_botao PINO_BOTAO_GRAVAR 300 estado_inicial_debounce =
      { estado_inicial_debounce with flag_botao_gravar_ativado := true, ultimo_acionamento_gravar := 300 } ∧
    tratador_interrupcao_botao PINO_BOTAO_GRAVAR 450
        (tratador_interrupcao_botao PINO_BOTAO_GRAVAR 300
          estado_inicial_debounce) =
      tratador_interrupcao_botao PINO_BOTAO_GRAVAR 300 estado_inicial_debounce :=
  ⟨by decide, by decide,
   (c5_debounce estado_inicial_debounce 300 450 (by decide) (by decide)).2.1
     (by decide),
   (c5_debounce estado_inicial_debounce 300 450 (by decide) (by decide)).2.2.1
     (by decide) (by decide) (by decide)⟩

-- =====================================================================
-- C10: the first edge after boot can be silently discarded
-- =====================================================================

/-- Claim C10: both last-accepted timestamps boot at `0`, so an edge on
either button whose timestamp is at most `200 ms` since boot is silently
discarded — the handler leaves the state untouched — even though no prior
edge was ever accepted on that button. -/
theorem c10_primeiro_toque_descartado (t : Nat)
    (h : t ≤ TEMPO_DEBOUNCE_BOTAO_MS) :
    tratador_interrupcao_botao PINO_BOTAO_GRAVAR t estado_inicial_debounce =
      estado_inicial_debounce ∧
    tratador_interrupcao_botao PINO_BOTAO_REPRODUZIR t estado_inicial_debounce =
      estado_inicial_debounce := by
  have hmod : sub_u32 t 0 = t := by
    rw [sub_u32, Nat.sub_zero, Nat.add_mod_right]
    refine Nat.mod_eq_of_lt ?_
    rw [TEMPO_DEBOUNCE_BOTAO_MS] at h
    rw [U32]
    omega
  constructor
  · rw [tratador_gravar_eq]
    rw [show estado_inicial_debounce.ultimo_acionamento_gravar = 0 from rfl]
    rw [hmod, if_neg (Nat.not_lt.mpr h)]
  · rw [tratador_reproduzir_eq]
    rw [show estado_inicial_debounce.ultimo_acionamento_reproduzir = 0 from rfl]
    rw [hmod, if_neg (Nat.not_lt.mpr h)]

/-- Witness for claim C10 at the boundary timestamp `t = 200`. -/
theorem c10_primeiro_toque_descartado_witness :
    (200 : Nat) ≤ TEMPO_DEBOUNCE_BOTAO_MS ∧
    tratador_interrupcao_botao PINO_BOTAO_GRAVAR 200 estado_inicial_debounce =
      estado_inicial_debounce ∧
    tratador_interrupcao_botao PINO_BOTAO_REPRODUZIR 200 estado_inicial_debounce =
      estado_inicial_debounce :=
  ⟨by decide, (c10_primeiro_toque_descartado 200 (by decide)).1,
   (c10_primeiro_toque_descartado 200 (by decide)).2⟩

-- =====================================================================
-- C6: nearest-index decimation in the renderer
-- =====================================================================

/-- For a 256-sample block, the decimation index of column `x` is exactly
`2 * x`. -/
lemma indice_amostra_256 (x : Nat) : indice_amostra 256 x = 2 * x := by
  rw [indice_amostra, if_pos (by norm_num [DISPLAY_WIDTH])]
  rw [DISPLAY_WIDTH]
  omega

/-- Claim C6: when the sample count exceeds the display width the renderer
reads, for column `x`, exactly the sample at index `x * count / 128`
(nearest-index decimation); for `count = 256` this is index `2 * x` exactly,
so the whole pixel output only reads the even-index samples; when
`count ≤ 128`, column `x` reads index `x`. -/
theorem c6_decimacao (n x : Nat) (dados : Nat → Nat) :
    (DISPLAY_WIDTH < n → indice_amostra n x = x * n / DISPLAY_WIDTH) ∧
    (n ≤ DISPLAY_WIDTH → indice_amostra n x = x) ∧
    indice_amostra 256 x = 2 * x ∧
    pixels_waveform dados 256 =
      (List.range DISPLAY_WIDTH).flatMap
        (fun c => pixels_coluna c (dados (2 * c))) := by
  refine ⟨fun h => ?_, fun h => ?_, indice_amostra_256 x, ?_⟩
  · rw [indice_amostra, if_pos h]
  · rw [indice_amostra, if_neg (Nat.not_lt.mpr h)]
  · rw [pixels_waveform]
    rw [show colunas_a_desenhar 256 = DISPLAY_WIDTH from rfl]
    congr 1
    funext c
    rw [indice_amostra_256]

/-- Witness for claim C6: a 256-sample block decimates column `5` to index
`10 = 5 * 256 / 128`, and a 100-sample block maps column `7` to index `7`. -/
theorem c6_decimacao_witness :
    (DISPLAY_WIDTH < 256 ∧ indice_amostra 256 5 = 5 * 256 / DISPLAY_WIDTH) ∧
    (100 ≤ DISPLAY_WIDTH ∧ indice_amostra 100 7 = 7) :=
  ⟨⟨by decide, (c6_decimacao 256 5 (fun _ => 0)).1 (by decide)⟩,
   ⟨by decide, (c6_decimacao 100 7 (fun _ => 0)).2.1 (by decide)⟩⟩

-- =====================================================================
-- C8: render with an empty block
-- =====================================================================

/-- Claim C8 counterexample: with `n_amostras = 0` the column loop runs zero
times, so *no* pixel at all is set — in particular the zero-amplitude axis
pixel of column 0 (row `y_centro = 38`) is not drawn, contrary to the claim
that the axis midline pixels are drawn. -/
theorem c8_contraexemplo_eixo :
    pixels_waveform (fun _ => 0) 0 = [] ∧
    ((0 : Nat), y_centro) ∉ pixels_waveform (fun _ => 0) 0 ∧
    y_centro = 38 :=
  ⟨rfl, by decide, by decide⟩

/-- Claim C8 (amended): a render call with `count = 0` does not fail and
degenerates to clearing the screen buffer and drawing the caption only: the
previous screen contents are discarded, the caption is drawn on the cleared
buffer, and the waveform loop sets no pixels at all (not even the axis
midline, since zero columns are drawn). -/
theorem c8_render_vazio
    (desenhar_legenda : (Nat → Nat → Bool) → Nat → Nat → Bool)
    (dados : Nat → Nat) (tela_anterior : Nat → Nat → Bool) :
    mostrar_waveform_display desenhar_legenda dados 0 tela_anterior =
      desenhar_legenda tela_limpa ∧
    pixels_waveform dados 0 = [] :=
  ⟨rfl, rfl⟩

-- =====================================================================
-- C2: one full record / render / play cycle
-- =====================================================================

/-- In `MODO_ESPERA` with the record flag set, the loop iteration performs
record + render (LED red, then off) and moves to `MODO_AGUARDANDO_PLAYBACK`,
clearing the record flag (modulo presses during the branch) and preserving
the play flag. -/
lemma passo_loop_gravacao (p : PressoesDuranteChamadas) (s : SistemaState)
    (hEst : s.estado = .MODO_ESPERA)
    (hG : s.flag_botao_gravar_ativado = true) :
    passo_loop p s =
      ({ estado := .MODO_AGUARDANDO_PLAYBACK,
         flag_botao_gravar_ativado := p.gravar,
         flag_botao_reproduzir_ativado :=
           s.flag_botao_reproduzir_ativado || p.reproduzir,
         led := ledApagado,
         total_amostras_capturadas := contagem_gravacao },
       [.led ledVermelho, .gravacao contagem_gravacao, .led ledApagado,
        .waveform contagem_gravacao]) := by
  simp [passo_loop, hEst, hG]

/-- In `MODO_ESPERA` with the record flag clear, the loop iteration is a
no-op: same state (same LED) and no observable action. -/
lemma passo_loop_espera_noop (p : PressoesDuranteChamadas) (s : SistemaState)
    (hEst : s.estado = .MODO_ESPERA)
    (hG : s.flag_botao_gravar_ativado = false) :
    passo_loop p s = (s, []) := by
  simp [passo_loop, hEst, hG]

/-- In `MODO_AGUARDANDO_PLAYBACK` with the play flag set, the loop iteration
plays (LED green, then off), clears the screen, clears the record flag
regardless of presses delivered during playback, and returns to
`MODO_ESPERA`. -/
lemma passo_loop_reproducao (p : PressoesDuranteChamadas) (s : SistemaState)
    (hEst : s.estado = .MODO_AGUARDANDO_PLAYBACK)
    (hR : s.flag_botao_reproduzir_ativado = true) :
    passo_loop p s =
      ({ estado := .MODO_ESPERA,
         flag_botao_gravar_ativado := false,
         flag_botao_reproduzir_ativado := p.reproduzir,
         led := ledApagado,
         total_amostras_capturadas := s.total_amostras_capturadas },
       [.led ledVerde, .reproducao s.total_amostras_capturadas,
        .led ledApagado, .apagarTela]) := by
  simp [passo_loop, hEst, hR]

/-- Claim C2: from `MODO_ESPERA`, an iteration with only the play flag set
is a no-op (no transition, no LED change, no action); with the record flag
set, one iteration performs the record → render phase and moves to
`MODO_AGUARDANDO_PLAYBACK`, and once the play flag is set the next iteration
performs the play phase and returns to `MODO_ESPERA` — one full cycle — with
any record press delivered during the play phase (`p₂.gravar`) discarded
rather than queued, so a further iteration triggers no recording. -/
theorem c2_ciclo_maquina_estados (s : SistemaState)
    (p₁ p₂ p₃ : PressoesDuranteChamadas) :
    (s.estado = .MODO_ESPERA → s.flag_botao_gravar_ativado = false →
      passo_loop p₁ s = (s, [])) ∧
    (s.estado = .MODO_ESPERA → s.flag_botao_gravar_ativado = true →
      p₁.gravar = false →
      (passo_loop p₁ s).1.estado = .MODO_AGUARDANDO_PLAYBACK ∧
      (passo_loop p₁ s).1.flag_botao_gravar_ativado = false ∧
      (passo_loop p₁ s).2 =
        [.led ledVermelho, .gravacao contagem_gravacao, .led ledApagado,
         .waveform contagem_gravacao] ∧
      (passo_loop p₂
          { (passo_loop p₁ s).1 with
            flag_botao_reproduzir_ativado := true }).1.estado = .MODO_ESPERA ∧
      (passo_loop p₂
          { (passo_loop p₁ s).1 with
            flag_botao_reproduzir_ativado := true }).1.flag_botao_gravar_ativado =
        false ∧
      (passo_loop p₂
          { (passo_loop p₁ s).1 with
            flag_botao_reproduzir_ativado := true }).2 =
        [.led ledVerde, .reproducao contagem_gravacao, .led ledApagado,
         .apagarTela] ∧
      passo_loop p₃
          (passo_loop p₂
            { (passo_loop p₁ s).1 with
              flag_botao_reproduzir_ativado := true }).1 =
        ((passo_loop p₂
            { (passo_loop p₁ s).1 with
              flag_botao_reproduzir_ativado := true }).1, [])) := by
  refine ⟨fun hEst hG => passo_loop_espera_noop p₁ s hEst hG,
    fun hEst hG hp₁ => ?_⟩
  rw [passo_loop_gravacao p₁ s hEst hG, hp₁]
  have h₂ := passo_loop_reproducao p₂
    { estado := .MODO_AGUARDANDO_PLAYBACK,
      flag_botao_gravar_ativado := false,
      flag_botao_reproduzir_ativado := true,
      led := ledApagado,
      total_amostras_capturadas := contagem_gravacao } rfl rfl
  refine ⟨rfl, rfl, rfl, ?_, ?_, ?_, ?_⟩
  · rw [h₂]
  · rw [h₂]
  · rw [h₂]
  · rw [h₂]
    exact passo_loop_espera_noop p₃ _ rfl rfl

/-- Witness for claim C2: the full cycle from the concrete state
`estado_espera_gravar`, with a record press delivered during playback
(`pressao_gravar`) that is discarded. -/
theorem c2_ciclo_maquina_estados_witness :
    (estado_espera_gravar.estado = .MODO_ESPERA ∧
     estado_espera_gravar.flag_botao_gravar_ativado = true ∧
     sem_pressao.gravar = false) ∧
    ((passo_loop sem_pressao estado_espera_gravar).1.estado =
        .MODO_AGUARDANDO_PLAYBACK ∧
     (passo_loop sem_pressao estado_espera_gravar).1.flag_botao_gravar_ativado =
        false ∧
     (passo_loop sem_pressao estado_espera_gravar).2 =
        [.led ledVermelho, .gravacao contagem_gravacao, .led ledApagado,
         .waveform contagem_gravacao] ∧
     (passo_loop pressao_gravar
        { (passo_loop sem_pressao estado_espera_gravar).1 with
          flag_botao_reproduzir_ativado := true }).1.estado = .MODO_ESPERA ∧
     (passo_loop pressao_gravar
        { (passo_loop sem_pressao estado_espera_gravar).1 with
          flag_botao_reproduzir_ativado := true }).1.flag_botao_gravar_ativado =
        false ∧
     (passo_loop pressao_gravar
        { (passo_loop sem_pressao estado_espera_gravar).1 with
          flag_botao_reproduzir_ativado := true }).2 =
        [.led ledVerde, .reproducao contagem_gravacao, .led ledApagado,
         .apagarTela] ∧
     passo_loop sem_pressao
        (passo_loop pressao_gravar
          { (passo_loop sem_pressao estado_espera_gravar).1 with
            flag_botao_reproduzir_ativado := true }).1 =
        ((passo_loop pressao_gravar
            { (passo_loop sem_pressao estado_espera_gravar).1 with
              flag_botao_reproduzir_ativado := true }).1, [])) :=
  ⟨⟨rfl, rfl, rfl⟩,
   (c2_ciclo_maquina_estados estado_espera_gravar sem_pressao pressao_gravar
     sem_pressao).2 rfl rfl rfl⟩

-- =====================================================================
-- C9: the play flag survives the recording phase
-- =====================================================================

/-- Claim C9: in `MODO_ESPERA` the main loop never consumes or clears the
play flag — a set play flag survives both the idle no-op and the whole
recording transition (including a play press delivered during recording) —
so after recording completes, the very next iteration starts playback with
no further play press. -/
theorem c9_flag_reproducao_preservada (s : SistemaState)
    (p₁ p₂ : PressoesDuranteChamadas) :
    (s.estado = .MODO_ESPERA → s.flag_botao_reproduzir_ativado = true →
      (passo_loop p₁ s).1.flag_botao_reproduzir_ativado = true) ∧
    (s.estado = .MODO_ESPERA → s.flag_botao_gravar_ativado = true →
      p₁.reproduzir = true →
      (passo_loop p₁ s).1.flag_botao_reproduzir_ativado = true) ∧
    (s.estado = .MODO_ESPERA → s.flag_botao_gravar_ativado = true →
      s.flag_botao_reproduzir_ativado = true →
      (passo_loop p₁ s).1.estado = .MODO_AGUARDANDO_PLAYBACK ∧
      (passo_loop p₂ (passo_loop p₁ s).1).2 =
        [.led ledVerde, .reproducao contagem_gravacao, .led ledApagado,
         .apagarTela] ∧
      (passo_loop p₂ (passo_loop p₁ s).1).1.estado = .MODO_ESPERA) := by
  refine ⟨fun hEst hR => ?_, fun hEst hG hp => ?_, fun hEst hG hR => ?_⟩
  · cases hG : s.flag_botao_gravar_ativado with
    | false => rw [passo_loop_espera_noop p₁ s hEst hG]; exact hR
    | true => rw [passo_loop_gravacao p₁ s hEst hG]; simp [hR]
  · rw [passo_loop_gravacao p₁ s hEst hG]
    simp [hp]
  · rw [passo_loop_gravacao p₁ s hEst hG, hR]
    have h₂ := passo_loop_reproducao p₂
      { estado := .MODO_AGUARDANDO_PLAYBACK,
        flag_botao_gravar_ativado := p₁.gravar,
        flag_botao_reproduzir_ativado := true,
        led := ledApagado,
        total_amostras_capturadas := contagem_gravacao } rfl rfl
    refine ⟨rfl, ?_, ?_⟩
    · simp only [Bool.true_or]
      rw [h₂]
    · simp only [Bool.true_or]
      rw [h₂]

/-- Witness for claim C9: from the concrete state `estado_espera_ambos`
(both flags pending while idle) the first iteration records and keeps the
play flag, and the second iteration plays back with no further press. -/
theorem c9_flag_reproducao_preservada_witness :
    (estado_espera_ambos.estado = .MODO_ESPERA ∧
     estado_espera_ambos.flag_botao_gravar_ativado = true ∧
     estado_espera_ambos.flag_botao_reproduzir_ativado = true) ∧
    ((passo_loop sem_pressao estado_espera_ambos).1.estado =
        .MODO_AGUARDANDO_PLAYBACK ∧
     (passo_loop sem_pressao (passo_loop sem_pressao estado_espera_ambos).1).2 =
        [.led ledVerde, .reproducao contagem_gravacao, .led ledApagado,
         .apagarTela] ∧
     (passo_loop sem_pressao (passo_loop sem_pressao estado_espera_ambos).1).1.estado =
        .MODO_ESPERA) :=
  ⟨⟨rfl, rfl, rfl⟩,
   (c9_flag_reproducao_preservada estado_espera_ambos sem_pressao
     sem_pressao).2.2 rfl rfl rfl⟩
